import Mathlib

/-!
Verification of the Aspa car-service booking marketplace business rules.

Each definition is a shallow embedding of the corresponding Python
function or Django handler from the repository (cardealing/models.py,
cardealing/api/views.py, cardealing/admin.py).  Money and timestamps are
modelled as rationals (Python Decimal / datetime arithmetic is exact at
the granularity the code uses), statuses as strings, and each request
handler as a pure function from its read set to its write set.
-/

namespace Aspa

/-- `CancellationPolicy` model (cardealing/models.py): time thresholds in
hours and the partial-refund percentage. -/
structure CancellationPolicy where
  free_cancellation_hours : Nat
  partial_refund_hours : Nat
  no_refund_hours : Nat
  partial_refund_percentage : Rat
deriving Repr, DecidableEq

/-- The fields of the `Booking` model that `get_cancellation_fee` reads. -/
structure Booking where
  total_amount : Rat
  service_scheduled_at : Rat
  cancellation_policy : Option CancellationPolicy
deriving Repr, DecidableEq

/-- `(self.service_scheduled_at - timezone.now()).total_seconds() / 3600`:
timestamps are in seconds, the quotient is the hours remaining. -/
def hoursUntilService (b : Booking) (now : Rat) : Rat :=
  (b.service_scheduled_at - now) / 3600

/-- `Booking.get_cancellation_fee` (cardealing/models.py): zero without a
policy; otherwise zero in the free window, a percentage of the total in
the partial window, and the full total below `partial_refund_hours`.
`no_refund_hours` is never read. -/
def get_cancellation_fee (b : Booking) (now : Rat) : Rat :=
  match b.cancellation_policy with
  | none => 0
  | some policy =>
    if hoursUntilService b now ≥ (policy.free_cancellation_hours : Rat) then 0
    else if hoursUntilService b now ≥ (policy.partial_refund_hours : Rat) then
      b.total_amount * (100 - policy.partial_refund_percentage) / 100
    else
      b.total_amount

/-- The `valid_transitions` dict of `Booking.clean` (cardealing/models.py). -/
def valid_transitions (status : String) : Option (List String) :=
  if status = "pending" then
    some ["confirmed", "cancelled_by_customer", "cancelled_by_dealer", "expired"]
  else if status = "confirmed" then
    some ["in_progress", "cancelled_by_customer", "cancelled_by_dealer"]
  else if status = "in_progress" then
    some ["completed", "no_show"]
  else none

/-- `Booking.clean` (cardealing/models.py): returns `true` exactly when the
method raises `ValidationError`.  `pk_set` is `bool(self.pk)`, `old_status`
the stored instance's status, `new_status` the incoming one. -/
def clean_raises (pk_set : Bool) (old_status new_status : String) : Bool :=
  pk_set &&
    (match valid_transitions old_status with
     | some allowed => !(allowed.contains new_status)
     | none => false)

/-- Policy of the C1 counterexample: `no_refund_hours` (24) exceeds
`partial_refund_hours` (12). -/
def cexPolicyC1 : CancellationPolicy :=
  { free_cancellation_hours := 48
    partial_refund_hours := 12
    no_refund_hours := 24
    partial_refund_percentage := 50 }

/-- Booking of the C1 counterexample: total 100, scheduled 12 hours
(43200 seconds) after the reference instant. -/
def cexBookingC1 : Booking :=
  { total_amount := 100
    service_scheduled_at := 43200
    cancellation_policy := some cexPolicyC1 }

/-- The `ServiceSlot` fields read by the booking endpoints
(cardealing/models.py). -/
structure ServiceSlot where
  is_active : Bool
  is_blocked : Bool
  available_capacity : Nat
deriving Repr, DecidableEq

/-- `ServiceSlot.is_available` (cardealing/models.py):
`self.is_active and not self.is_blocked and self.available_capacity > 0`. -/
def is_available (s : ServiceSlot) : Bool :=
  s.is_active && !s.is_blocked && decide (0 < s.available_capacity)

/-- The read set of `BookingListCreateView.post` (cardealing/api/views.py):
whether `service_slot`/`vehicle` fields are present, the looked-up slot (if
any), whether the vehicle belongs to the requesting user, and whether
`BookingSerializer.is_valid()` holds. -/
structure BookingCreateRequest where
  required_present : Bool
  slot : Option ServiceSlot
  vehicle_owned : Bool
  serializer_valid : Bool
deriving Repr, DecidableEq

/-- The write set of `BookingListCreateView.post`: whether a success (201)
response is returned, whether a Booking row was created, and the state of
the referenced slot afterwards. -/
structure BookingCreateResult where
  success : Bool
  booking_created : Bool
  slot_after : Option ServiceSlot
deriving Repr, DecidableEq

/-- `BookingListCreateView.post` (cardealing/api/views.py): missing fields
raise, a missing or unavailable slot (`not slot.is_active or
slot.available_capacity <= 0`) fails, an unowned vehicle fails, an invalid
serializer fails; otherwise the booking is created and
`slot.available_capacity -= 1` in the same transaction.  The check never
reads `is_blocked`. -/
def bookingCreatePost (r : BookingCreateRequest) : BookingCreateResult :=
  if r.required_present = false then
    { success := false, booking_created := false, slot_after := r.slot }
  else
    match r.slot with
    | none => { success := false, booking_created := false, slot_after := none }
    | some slot =>
      if slot.is_active = false ∨ slot.available_capacity ≤ 0 then
        { success := false, booking_created := false, slot_after := some slot }
      else if r.vehicle_owned = false then
        { success := false, booking_created := false, slot_after := some slot }
      else if r.serializer_valid = true then
        { success := true, booking_created := true,
          slot_after := some { slot with available_capacity := slot.available_capacity - 1 } }
      else
        { success := false, booking_created := false, slot_after := some slot }

/-- The booking state read by `BookingCancelView.post`: current status and
the originating slot's capacity. -/
structure CancelState where
  status : String
  slot_capacity : Nat
deriving Repr, DecidableEq

/-- A `BookingStatusHistory` row as created by the cancel endpoint. -/
structure BookingStatusHistory where
  old_status : String
  new_status : String
  reason : String
deriving Repr, DecidableEq

/-- The write set of `BookingCancelView.post`. -/
structure CancelResult where
  success : Bool
  status_after : String
  slot_capacity_after : Nat
  history_created : List BookingStatusHistory
deriving Repr, DecidableEq

/-- `BookingCancelView.post` (cardealing/api/views.py): rejects unless the
status is pending or confirmed; otherwise sets
`obj.status = 'cancelled_by_customer'`, increments the slot capacity and
creates a `BookingStatusHistory` row whose `old_status` reads `obj.status`
only after the assignment. -/
def bookingCancelPost (st : CancelState) (reason : String) : CancelResult :=
  if st.status ∉ (["pending", "confirmed"] : List String) then
    { success := false, status_after := st.status,
      slot_capacity_after := st.slot_capacity, history_created := [] }
  else
    let status_assigned := "cancelled_by_customer"
    { success := true, status_after := status_assigned,
      slot_capacity_after := st.slot_capacity + 1,
      history_created := [{ old_status := status_assigned,
                            new_status := "cancelled_by_customer",
                            reason := reason }] }

/-- A `BalanceTransaction` row as created by the payout signal
(cardealing/models.py). -/
structure BalanceTransaction where
  amount : Rat
  transaction_type : String
  balance_before : Rat
  balance_after : Rat
deriving Repr, DecidableEq

/-- The `DealerProfile.current_balance` together with the dealer's
`BalanceTransaction` rows. -/
structure DealerLedger where
  current_balance : Rat
  transactions : List BalanceTransaction
deriving Repr, DecidableEq

/-- The `update_dealer_balance_on_payout` post-save signal handler
(cardealing/models.py): acts only when `created and instance.status ==
'completed'`; then decrements the balance by `net_amount` and records a
transaction whose `balance_before` is recomputed as the already-decremented
balance plus `net_amount`. -/
def update_dealer_balance_on_payout (created : Bool) (status : String)
    (net_amount : Rat) (ledger : DealerLedger) : DealerLedger :=
  if created = true ∧ status = "completed" then
    let newBalance := ledger.current_balance - net_amount
    { current_balance := newBalance,
      transactions := ledger.transactions ++
        [{ amount := -net_amount, transaction_type := "payout",
           balance_before := newBalance + net_amount,
           balance_after := newBalance }] }
  else ledger

/-- The read set of `UserRegistrationView.post` (cardealing/api/views.py). -/
structure RegistrationRequest where
  required_present : Bool
  username_taken : Bool
  email_taken : Bool
  password_length : Nat
  user_type : String
deriving Repr, DecidableEq

/-- The write set of `UserRegistrationView.post`: success and which profile
rows were created. -/
structure RegistrationResult where
  success : Bool
  dealer_profile_created : Bool
  customer_profile_created : Bool
deriving Repr, DecidableEq

/-- `UserRegistrationView.post` (cardealing/api/views.py): after the
username/email/password checks, creates a `DealerProfile` when
`user_type == 'dealer'` and a `CustomerProfile` otherwise. -/
def userRegistrationPost (r : RegistrationRequest) : RegistrationResult :=
  if r.required_present = false then
    { success := false, dealer_profile_created := false, customer_profile_created := false }
  else if r.username_taken = true then
    { success := false, dealer_profile_created := false, customer_profile_created := false }
  else if r.email_taken = true then
    { success := false, dealer_profile_created := false, customer_profile_created := false }
  else if r.password_length < 6 then
    { success := false, dealer_profile_created := false, customer_profile_created := false }
  else if r.user_type = "dealer" then
    { success := true, dealer_profile_created := true, customer_profile_created := false }
  else
    { success := true, dealer_profile_created := false, customer_profile_created := true }

/-- Modelled from the spec: the `SlotTemplate` model and its
`generate_slots_*` methods are invoked from `cardealing/admin.py`
(`SlotTemplateAdmin.generate_slots_view`,
`ServiceAdmin.generate_all_slots_view`) but their definition is not among
the provided sources.  Spec §4.3: a weekly recurring template is a
day-of-week with a start/end time.  Dates are day numbers; the weekday of
day `d` is `d % 7`. -/
structure SlotTemplate where
  day_of_week : Nat
  start_time : Nat
  end_time : Nat
deriving Repr, DecidableEq

/-- A generated `ServiceSlot` identified by its uniqueness-constraint key
part (date, start_time) plus the end time. -/
structure GeneratedSlot where
  date : Nat
  start_time : Nat
  end_time : Nat
deriving Repr, DecidableEq

/-- Modelled from the spec: `SlotTemplate.generate_slots_for_days` (absent
from the provided sources; spec §4.3): "generate one ServiceSlot per future
date matching that weekday within the window" — straight date-range
iteration over the `days` future dates, keeping those whose weekday matches
the template. -/
def generate_slots_for_days (tpl : SlotTemplate) (today : Nat) (days : Nat) :
    List GeneratedSlot :=
  (((List.range days).map (fun i => today + 1 + i)).filter
      (fun d => d % 7 = tpl.day_of_week)).map
    (fun d => { date := d, start_time := tpl.start_time, end_time := tpl.end_time })

/-- A JSON value, as far as the response payloads need. -/
inductive JsonValue where
  | null
  | bool (b : Bool)
  | str (s : String)
  | obj (fields : List (String × JsonValue))
deriving Repr

/-- `BaseAPIView.ok` (cardealing/api/views.py): payload
`{"success": True, "message": message, "data": data}` then
`payload.update(extra)`. -/
def ok_payload (data : JsonValue) (message : String)
    (extra : List (String × JsonValue)) : List (String × JsonValue) :=
  [("success", JsonValue.bool true), ("message", JsonValue.str message),
   ("data", data)] ++ extra

/-- `BaseAPIView.fail` (cardealing/api/views.py): payload
`{"success": False, "message": message, "errors": errors or {}}` then
`payload.update(extra)`. -/
def fail_payload (errors : Option JsonValue) (message : String)
    (extra : List (String × JsonValue)) : List (String × JsonValue) :=
  [("success", JsonValue.bool false), ("message", JsonValue.str message),
   ("errors", errors.getD (JsonValue.obj []))] ++ extra

end Aspa

open Aspa

/-- C1 (amended): with a cancellation policy attached, the fee is 0 when at
least `free_cancellation_hours` remain; `total*(100-pct)/100` when fewer than
`free_cancellation_hours` but at least `partial_refund_hours` remain; the full
`total_amount` otherwise (fewer than both thresholds) — and hence the full
`total_amount` inside the no-refund window for every policy whose
`no_refund_hours` is at most both `partial_refund_hours` and
`free_cancellation_hours`. -/
theorem cancellation_fee_windows (b : Booking) (p : CancellationPolicy) (now : Rat)
    (hp : b.cancellation_policy = some p) :
    (hoursUntilService b now ≥ (p.free_cancellation_hours : Rat) →
      get_cancellation_fee b now = 0) ∧
    (hoursUntilService b now < (p.free_cancellation_hours : Rat) →
      hoursUntilService b now ≥ (p.partial_refund_hours : Rat) →
      get_cancellation_fee b now
        = b.total_amount * (100 - p.partial_refund_percentage) / 100) ∧
    (hoursUntilService b now < (p.free_cancellation_hours : Rat) →
      hoursUntilService b now < (p.partial_refund_hours : Rat) →
      get_cancellation_fee b now = b.total_amount) ∧
    (p.no_refund_hours ≤ p.partial_refund_hours →
      p.no_refund_hours ≤ p.free_cancellation_hours →
      hoursUntilService b now < (p.no_refund_hours : Rat) →
      get_cancellation_fee b now = b.total_amount) := by
  refine ⟨fun h1 => ?_, fun h1 h2 => ?_, fun h1 h2 => ?_, fun ha hb h1 => ?_⟩
  · simp only [get_cancellation_fee, hp]
    rw [if_pos h1]
  · simp only [get_cancellation_fee, hp]
    rw [if_neg (not_le.mpr h1), if_pos h2]
  · simp only [get_cancellation_fee, hp]
    rw [if_neg (not_le.mpr h1), if_neg (not_le.mpr h2)]
  · have hcp : (p.no_refund_hours : Rat) ≤ (p.partial_refund_hours : Rat) := by
      exact_mod_cast ha
    have hcf : (p.no_refund_hours : Rat) ≤ (p.free_cancellation_hours : Rat) := by
      exact_mod_cast hb
    simp only [get_cancellation_fee, hp]
    rw [if_neg (not_le.mpr (lt_of_lt_of_le h1 hcf)),
      if_neg (not_le.mpr (lt_of_lt_of_le h1 hcp))]

/-- Witness for C1: a booking 24 hours out under the default-style policy
(free 24h, partial 12h, no-refund 2h, 50%) cancels free of charge. -/
theorem cancellation_fee_windows_witness :
    get_cancellation_fee ⟨100, 86400, some ⟨24, 12, 2, 50⟩⟩ 0 = 0 :=
  (cancellation_fee_windows ⟨100, 86400, some ⟨24, 12, 2, 50⟩⟩ ⟨24, 12, 2, 50⟩ 0 rfl).1
    (by norm_num [hoursUntilService])

/-- C1 counterexample: under a policy with `no_refund_hours = 24` above
`partial_refund_hours = 12`, a cancellation 12 hours before the service —
inside the no-refund window — is charged the partial fee 50, not the full
`total_amount` 100. -/
theorem cancellation_fee_no_refund_counterexample :
    hoursUntilService cexBookingC1 0 < (cexPolicyC1.no_refund_hours : Rat) ∧
    get_cancellation_fee cexBookingC1 0 ≠ cexBookingC1.total_amount := by
  constructor
  · norm_num [hoursUntilService, cexBookingC1, cexPolicyC1]
  · norm_num [get_cancellation_fee, hoursUntilService, cexBookingC1, cexPolicyC1]

/-- C4: on an update (pk set), `Booking.clean` raises exactly when the stored
status is pending, confirmed or in_progress and the new status is outside
that status's allowed list; any stored status outside the map accepts every
new status. -/
theorem clean_raises_iff (old_status new_status : String) :
    clean_raises true old_status new_status = true ↔
      ((old_status = "pending" ∧
          new_status ∉ (["confirmed", "cancelled_by_customer",
            "cancelled_by_dealer", "expired"] : List String)) ∨
       (old_status = "confirmed" ∧
          new_status ∉ (["in_progress", "cancelled_by_customer",
            "cancelled_by_dealer"] : List String)) ∨
       (old_status = "in_progress" ∧
          new_status ∉ (["completed", "no_show"] : List String))) := by
  unfold clean_raises valid_transitions
  by_cases h1 : old_status = "pending"
  · subst h1
    simp
  · by_cases h2 : old_status = "confirmed"
    · subst h2
      simp
    · by_cases h3 : old_status = "in_progress"
      · subst h3
        simp
      · simp [h1, h2, h3]

/-- C2: a create request against a slot with `available_capacity = 0` fails,
creates no booking and leaves the slot unchanged; a successful creation
decrements the referenced slot's capacity by exactly 1. -/
theorem booking_create_capacity (r : BookingCreateRequest) (s : ServiceSlot)
    (h : r.slot = some s) :
    (s.available_capacity = 0 →
      (bookingCreatePost r).success = false ∧
      (bookingCreatePost r).booking_created = false ∧
      (bookingCreatePost r).slot_after = some s) ∧
    ((bookingCreatePost r).success = true →
      ∃ s2, (bookingCreatePost r).slot_after = some s2 ∧
        s2.available_capacity + 1 = s.available_capacity) := by
  constructor
  · intro hc
    unfold bookingCreatePost
    rw [h]
    split_ifs with h1 h2 h3 h4 <;> simp_all
  · intro hsucc
    obtain ⟨req, slotf, veh, ser⟩ := r
    obtain ⟨act, blk, cap⟩ := s
    simp only at h
    subst h
    by_cases hcap : cap = 0
    · unfold bookingCreatePost at hsucc
      cases req <;> cases act <;> cases veh <;> cases ser <;> simp_all [hcap]
    · have hcap2 : ¬(cap ≤ 0) := by omega
      unfold bookingCreatePost at hsucc ⊢
      cases req <;> cases act <;> cases veh <;> cases ser <;>
        simp_all [hcap2] <;> omega

/-- Witness for C2: against a slot of capacity 0 the request fails and the
slot is unchanged. -/
theorem booking_create_capacity_witness :
    (bookingCreatePost ⟨true, some ⟨true, false, 0⟩, true, true⟩).success = false ∧
    (bookingCreatePost ⟨true, some ⟨true, false, 0⟩, true, true⟩).booking_created = false ∧
    (bookingCreatePost ⟨true, some ⟨true, false, 0⟩, true, true⟩).slot_after
      = some ⟨true, false, 0⟩ :=
  (booking_create_capacity ⟨true, some ⟨true, false, 0⟩, true, true⟩
    ⟨true, false, 0⟩ rfl).1 rfl

/-- C9: the creation-time availability check is weaker than
`ServiceSlot.is_available`: a blocked, active slot with capacity 1 admits a
successful booking even though `is_available` is false for it. -/
theorem booking_create_ignores_is_blocked :
    (bookingCreatePost ⟨true, some ⟨true, true, 1⟩, true, true⟩).success = true ∧
    is_available ⟨true, true, 1⟩ = false := by
  decide

/-- C3: cancelling a pending or confirmed booking succeeds, sets the status
to cancelled_by_customer and increments the slot capacity by exactly 1; any
other status is rejected with booking and slot untouched. -/
theorem booking_cancel_transitions (st : CancelState) (reason : String) :
    (st.status ∈ (["pending", "confirmed"] : List String) →
      (bookingCancelPost st reason).success = true ∧
      (bookingCancelPost st reason).status_after = "cancelled_by_customer" ∧
      (bookingCancelPost st reason).slot_capacity_after = st.slot_capacity + 1) ∧
    (st.status ∉ (["pending", "confirmed"] : List String) →
      (bookingCancelPost st reason).success = false ∧
      (bookingCancelPost st reason).status_after = st.status ∧
      (bookingCancelPost st reason).slot_capacity_after = st.slot_capacity ∧
      (bookingCancelPost st reason).history_created = []) := by
  unfold bookingCancelPost
  by_cases hm : st.status ∈ (["pending", "confirmed"] : List String) <;> simp [hm]

/-- Witness for C3: cancelling a pending booking on a slot with capacity 5
leaves capacity 6; cancelling a completed one is rejected. -/
theorem booking_cancel_transitions_witness :
    ((bookingCancelPost ⟨"pending", 5⟩ "r").slot_capacity_after = 5 + 1) ∧
    ((bookingCancelPost ⟨"completed", 5⟩ "r").success = false) :=
  ⟨((booking_cancel_transitions ⟨"pending", 5⟩ "r").1 (by decide)).2.2,
   ((booking_cancel_transitions ⟨"completed", 5⟩ "r").2 (by decide)).1⟩

/-- C10: the history row written by a successful customer cancellation
records `old_status = "cancelled_by_customer"` — the status already assigned
to the booking — not the status the booking held before the cancellation. -/
theorem booking_cancel_history_old_status (st : CancelState) (reason : String)
    (h : st.status ∈ (["pending", "confirmed"] : List String)) :
    (bookingCancelPost st reason).history_created
      = [{ old_status := "cancelled_by_customer",
           new_status := "cancelled_by_customer", reason := reason }] := by
  unfold bookingCancelPost
  simp [h]

/-- Witness for C10: cancelling a pending booking writes the history row with
`old_status = "cancelled_by_customer"`. -/
theorem booking_cancel_history_old_status_witness :
    (bookingCancelPost ⟨"pending", 5⟩ "why").history_created
      = [{ old_status := "cancelled_by_customer",
           new_status := "cancelled_by_customer", reason := "why" }] :=
  booking_cancel_history_old_status ⟨"pending", 5⟩ "why" (by decide)

/-- C5 (amended): a `DealerPayout` saved as created with status completed
decrements the dealer balance by exactly `net_amount` and appends exactly one
`BalanceTransaction` of type payout, amount `-net_amount`, with
`balance_before` the balance before the decrement and `balance_after` the
balance after it. -/
theorem payout_completed_on_creation (net : Rat) (ledger : DealerLedger) :
    (update_dealer_balance_on_payout true "completed" net ledger).current_balance
      = ledger.current_balance - net ∧
    (update_dealer_balance_on_payout true "completed" net ledger).transactions
      = ledger.transactions ++
        [{ amount := -net, transaction_type := "payout",
           balance_before := ledger.current_balance,
           balance_after := ledger.current_balance - net }] := by
  unfold update_dealer_balance_on_payout
  norm_num

/-- C5 counterexample: a payout that reaches status completed on an update
(post-save with `created = False`) changes neither the balance nor the
transaction list, although `net_amount = 100` is nonzero. -/
theorem payout_completed_on_update_counterexample :
    (update_dealer_balance_on_payout false "completed" 100 ⟨500, []⟩).current_balance
      = 500 ∧
    (update_dealer_balance_on_payout false "completed" 100 ⟨500, []⟩).transactions
      = [] ∧
    (500 : Rat) ≠ 500 - 100 := by
  refine ⟨rfl, rfl, by norm_num⟩

/-- C6: a successful registration creates a `DealerProfile` exactly when
`user_type` is dealer and a `CustomerProfile` exactly otherwise; never both
for the same call. -/
theorem registration_single_profile (r : RegistrationRequest)
    (h : (userRegistrationPost r).success = true) :
    ((userRegistrationPost r).dealer_profile_created = true ↔
      r.user_type = "dealer") ∧
    ((userRegistrationPost r).customer_profile_created = true ↔
      r.user_type ≠ "dealer") ∧
    ¬((userRegistrationPost r).dealer_profile_created = true ∧
      (userRegistrationPost r).customer_profile_created = true) := by
  unfold userRegistrationPost at h ⊢
  split_ifs at h ⊢ with h1 h2 h3 h4 h5 <;> simp_all

/-- Witness for C6: registering with user_type dealer creates the dealer
profile and no customer profile. -/
theorem registration_single_profile_witness :
    ((userRegistrationPost ⟨true, false, false, 8, "dealer"⟩).dealer_profile_created
        = true ↔ ("dealer" : String) = "dealer") ∧
    ¬((userRegistrationPost ⟨true, false, false, 8, "dealer"⟩).dealer_profile_created = true ∧
      (userRegistrationPost ⟨true, false, false, 8, "dealer"⟩).customer_profile_created = true) :=
  ⟨(registration_single_profile ⟨true, false, false, 8, "dealer"⟩ rfl).1,
   (registration_single_profile ⟨true, false, false, 8, "dealer"⟩ rfl).2.2⟩

/-- C7: over a 7-, 15- or 30-day window, slot generation emits slots with
pairwise distinct dates — so the (service, date, start_time) uniqueness key
never collides within one run — and a date carries a slot exactly when it is
a future date inside the window whose weekday matches the template; every
generated slot copies the template's start and end times. -/
theorem slot_generation_one_per_matching_date (tpl : SlotTemplate)
    (today days : Nat) (hdays : days = 7 ∨ days = 15 ∨ days = 30) :
    ((generate_slots_for_days tpl today days).map GeneratedSlot.date).Nodup ∧
    (∀ d : Nat,
      d ∈ (generate_slots_for_days tpl today days).map GeneratedSlot.date ↔
        (today + 1 ≤ d ∧ d ≤ today + days ∧ d % 7 = tpl.day_of_week)) ∧
    (∀ s ∈ generate_slots_for_days tpl today days,
      s.start_time = tpl.start_time ∧ s.end_time = tpl.end_time) := by
  have hmap : (generate_slots_for_days tpl today days).map GeneratedSlot.date
      = ((List.range days).map (fun i => today + 1 + i)).filter
          (fun d => decide (d % 7 = tpl.day_of_week)) := by
    unfold generate_slots_for_days
    rw [List.map_map]
    have hid : (GeneratedSlot.date ∘ fun d =>
        ({ date := d, start_time := tpl.start_time,
           end_time := tpl.end_time } : GeneratedSlot)) = id := rfl
    rw [hid, List.map_id]
  refine ⟨?_, ?_, ?_⟩
  · rw [hmap]
    refine List.Nodup.filter _ (List.Nodup.map ?_ (List.nodup_range days))
    intro a b hab
    have hab2 : today + 1 + a = today + 1 + b := hab
    omega
  · intro d
    rw [hmap, List.mem_filter]
    simp only [List.mem_map, List.mem_range, decide_eq_true_eq]
    constructor
    · rintro ⟨⟨i, hi, rfl⟩, hmod⟩
      refine ⟨?_, ?_, hmod⟩
      · show today + 1 ≤ today + 1 + i
        omega
      · show today + 1 + i ≤ today + days
        omega
    · rintro ⟨hd1, hd2, hd3⟩
      refine ⟨⟨d - (today + 1), by omega, ?_⟩, hd3⟩
      show today + 1 + (d - (today + 1)) = d
      omega
  · intro s hs
    unfold generate_slots_for_days at hs
    rw [List.mem_map] at hs
    obtain ⟨d, _, rfl⟩ := hs
    exact ⟨rfl, rfl⟩

/-- Witness for C7: a 7-day run from day 0 with a weekday-0 template yields
slots with pairwise distinct dates. -/
theorem slot_generation_one_per_matching_date_witness :
    ((generate_slots_for_days ⟨0, 540, 600⟩ 0 7).map GeneratedSlot.date).Nodup :=
  (slot_generation_one_per_matching_date ⟨0, 540, 600⟩ 0 7 (Or.inl rfl)).1

/-- C8: with no extra keyword arguments — as at every call site in the
repository — a `fail` payload has exactly the keys success, message, errors
with success false, and an `ok` payload carries success true together with
message and data keys. -/
theorem base_api_response_shape (errors : Option JsonValue) (data : JsonValue)
    (failMessage okMessage : String) (extra : List (String × JsonValue))
    (hextra : extra = []) :
    (fail_payload errors failMessage extra).map Prod.fst
      = ["success", "message", "errors"] ∧
    ("success", JsonValue.bool false) ∈ fail_payload errors failMessage extra ∧
    ("success", JsonValue.bool true) ∈ ok_payload data okMessage extra ∧
    "message" ∈ (ok_payload data okMessage extra).map Prod.fst ∧
    "data" ∈ (ok_payload data okMessage extra).map Prod.fst := by
  subst hextra
  refine ⟨rfl, List.mem_cons_self _ _, List.mem_cons_self _ _, ?_, ?_⟩ <;>
    simp [ok_payload]

/-- Witness for C8: the concrete failure payload over an empty errors dict
exposes exactly the three keys. -/
theorem base_api_response_shape_witness :
    (fail_payload none "err" []).map Prod.fst = ["success", "message", "errors"] :=
  (base_api_response_shape none JsonValue.null "err" "ok" [] rfl).1
